import Mathlib

/-
Verification development for the eth_tracker repository.

The relational store is embedded shallowly: tables are lists of rows,
Django model rows are structures carrying the fields the properties
concern, `DecimalField` values are rationals (`Rat`), and timestamps are
integers.  Request handlers become pure functions from a database value
(plus the decoded external API response) to a database value; a Python
exception becomes the `Except.error` constructor carrying the database as
it stands when the exception propagates.
-/

/-- Row of `EthereumAddress` (tracker/models.py).  `balance` is a
`DecimalField` with `default=0`; `last_updated` defaults to the creation
time.  Fields not touched by any property (label, is_contract,
created_at) are omitted. -/
structure EthereumAddress where
  address : String
  balance : Rat
  last_updated : Int
  deriving DecidableEq

/-- Row of `Transaction` (tracker/models.py).  The two foreign keys are
held as the unique `address` string of the referenced row. -/
structure Transaction where
  hash : String
  from_address : String
  to_address : String
  value : Rat
  gas_price : Int
  gas_used : Int
  block_number : Int
  timestamp : Int
  status : Bool
  deriving DecidableEq

/-- Row of `AddressWatchList` (tracker/models.py), the through table of
the many-to-many relation, with `unique_together = ['address', 'watchlist']`.
The watchlist foreign key is held as a numeric id. -/
structure AddressWatchList where
  address : String
  watchlist : Nat
  deriving DecidableEq

/-- The database state the handlers read and write. -/
structure DB where
  addresses : List EthereumAddress
  transactions : List Transaction
  deriving DecidableEq

/-- Numeric parsing of a nonnegative decimal digit string, as Python
`Decimal(s)` and `int(s)` behave on the integer strings the explorer API
returns in its `result` fields. -/
def parseDecimalNat (s : String) : Nat :=
  s.data.foldl (fun n c => n * 10 + (c.toNat - 48)) 0

/-- Wei per Ether: the divisor `Decimal(10**18)` of views.py. -/
def weiPerEth : Rat := 1000000000000000000

/-- Decoded JSON body of the explorer `account/balance` action:
a `status` string and a `result` string (balance in wei). -/
structure BalanceResponse where
  status : String
  result : String
  deriving DecidableEq

/-- Django's `obj.save()` on a fetched row: the row whose unique
`address` key matches is replaced by the mutated in-memory object. -/
def saveAddress (db : DB) (e : EthereumAddress) : DB :=
  { db with addresses := db.addresses.map (fun x => if x.address == e.address then e else x) }

/-- Function `update_address_balance` of tracker/views.py.  On `status`
"1" it converts the wei `result` to Ether by dividing by 10^18, sets the
balance and `last_updated = timezone.now()` on the address object and
saves it; otherwise it raises `ValueError("Failed to fetch balance from
Etherscan")` having performed no write, so the error carries the input
database unchanged. -/
def update_address_balance (db : DB) (a : EthereumAddress) (data : BalanceResponse)
    (now : Int) : Except (String × DB) DB :=
  if data.status == "1" then
    let wei_balance : Rat := (parseDecimalNat data.result : Rat)
    let eth_balance : Rat := wei_balance / weiPerEth
    Except.ok (saveAddress db { a with balance := eth_balance, last_updated := now })
  else
    Except.error ("Failed to fetch balance from Etherscan", db)

/-- Python's `str.lower()`, as character-wise ASCII lowercasing (the
strings the code lowercases are ASCII hex addresses). -/
def pyLower (s : String) : String := String.mk (s.data.map Char.toLower)

/-- Hexadecimal character class `[a-fA-F0-9]` of the address regex. -/
def isHexChar (c : Char) : Bool :=
  ('a' ≤ c && c ≤ 'f') || ('A' ≤ c && c ≤ 'F') || ('0' ≤ c && c ≤ '9')

/-- Match of the regex core `0x[a-fA-F0-9]{40}` against a whole
character list. -/
def hexAddressCore (l : List Char) : Bool :=
  match l with
  | '0' :: 'x' :: rest => rest.length == 40 && rest.all isHexChar
  | _ => false

/-- Python `re.match(r'^0x[a-fA-F0-9]{40}$', s)` as a Boolean.  Per the
Python `re` documentation, `$` (outside MULTILINE mode) matches at the
end of the string or just before a single newline at the end of the
string, so the regex also accepts the core followed by one trailing
newline character. -/
def addressRegexMatch (s : String) : Bool :=
  hexAddressCore s.data ||
    (match s.data.getLast? with
     | some c => c == '\n' && hexAddressCore s.data.dropLast
     | none => false)

/-- Method `AddAddressForm.clean_address` of tracker/forms.py: raise
`ValidationError('Invalid Ethereum address format')` when the regex does
not match, else return the lowercased address. -/
def clean_address (address : String) : Except String String :=
  if !(addressRegexMatch address) then Except.error "Invalid Ethereum address format"
  else Except.ok (pyLower address)

/-- Written from the spec, for comparison with `clean_address`: the
spec's invariant is that a valid address string is exactly `0x` followed
by 40 hexadecimal characters. -/
def specAddressFormat (s : String) : Bool :=
  hexAddressCore s.data

/-- One entry of the explorer `account/txlist` response array
(all fields arrive as JSON strings). -/
structure TxEntry where
  hash : String
  «from» : String
  «to» : String
  value : String
  gasPrice : String
  gasUsed : String
  blockNumber : String
  timeStamp : String
  isError : String
  deriving DecidableEq

/-- Decoded JSON body of the explorer `account/txlist` action. -/
structure TxListResponse where
  status : String
  result : List TxEntry
  deriving DecidableEq

/-- Django's `EthereumAddress.objects.get_or_create(address=a)`: return
the existing row for `a`, or insert a fresh row with the model defaults
(`balance = 0`, `last_updated` = now) and return it. -/
def get_or_create (db : DB) (a : String) (now : Int) : DB × EthereumAddress :=
  match db.addresses.find? (fun e => e.address == a) with
  | some e => (db, e)
  | none =>
    let e : EthereumAddress := { address := a, balance := 0, last_updated := now }
    ({ db with addresses := db.addresses ++ [e] }, e)

/-- `Transaction.objects.filter(hash=h).exists()`. -/
def hashExists (db : DB) (h : String) : Bool :=
  db.transactions.any (fun t => t.hash == h)

/-- The `Transaction.objects.create(...)` row built for one txlist
entry, given the resolved from/to address rows: wei value divided by
10^18, parsed numeric fields, and `status = (isError == "0")`. -/
def createdTransaction (from_addr to_addr : EthereumAddress) (tx : TxEntry) : Transaction :=
  { hash := tx.hash
    from_address := from_addr.address
    to_address := to_addr.address
    value := (parseDecimalNat tx.value : Rat) / weiPerEth
    gas_price := (parseDecimalNat tx.gasPrice : Int)
    gas_used := (parseDecimalNat tx.gasUsed : Int)
    block_number := (parseDecimalNat tx.blockNumber : Int)
    timestamp := (parseDecimalNat tx.timeStamp : Int)
    status := tx.isError == "0" }

/-- Loop body of `fetch_transactions_from_etherscan` for one entry:
skip when a Transaction with that hash already exists; otherwise
get-or-create the lowercased from/to addresses and create the
Transaction row. -/
def importEntry (now : Int) (db : DB) (tx : TxEntry) : DB :=
  if hashExists db tx.hash then db
  else
    let p1 := get_or_create db (pyLower tx.«from») now
    let p2 := get_or_create p1.1 (pyLower tx.«to») now
    { p2.1 with transactions := p2.1.transactions ++ [createdTransaction p1.2 p2.2 tx] }

/-- Function `fetch_transactions_from_etherscan` of tracker/views.py:
on non-"1" `status` it logs and returns with no write; otherwise it runs
`importEntry` over the result array in order. -/
def fetch_transactions_from_etherscan (db : DB) (data : TxListResponse) (now : Int) : DB :=
  if data.status != "1" then db
  else data.result.foldl (importEntry now) db

/-- Descending-timestamp comparison used by `order_by('-timestamp')` and
by `sort(key=lambda x: x.timestamp, reverse=True)`. -/
def tsDesc (t s : Transaction) : Bool := s.timestamp ≤ t.timestamp

/-- Queryset `eth_address.outgoing_transactions.order_by('-timestamp')[:20]`. -/
def outgoingWindow (db : DB) (a : String) : List Transaction :=
  ((db.transactions.filter (fun t => t.from_address == a)).mergeSort tsDesc).take 20

/-- Queryset `eth_address.incoming_transactions.order_by('-timestamp')[:20]`. -/
def incomingWindow (db : DB) (a : String) : List Transaction :=
  ((db.transactions.filter (fun t => t.to_address == a)).mergeSort tsDesc).take 20

/-- The context dictionary rendered by `address_detail`.  The counts are
`outgoing_txs.count()` and `incoming_txs.count()` where both querysets
are already sliced to 20, so each count is the length of the 20-capped
window. -/
structure AddressDetailContext where
  transactions : List Transaction
  outgoing_count : Nat
  incoming_count : Nat
  deriving DecidableEq

/-- Pure part of the `address_detail` view of tracker/views.py (the
second, effective definition): combine the two 20-capped windows, sort
the merged list by timestamp descending, truncate to 20, and count each
sliced queryset. -/
def addressDetailContext (db : DB) (a : String) : AddressDetailContext :=
  let outgoing_txs := outgoingWindow db a
  let incoming_txs := incomingWindow db a
  let all_transactions := (outgoing_txs ++ incoming_txs).mergeSort tsDesc
  { transactions := all_transactions.take 20
    outgoing_count := outgoing_txs.length
    incoming_count := incoming_txs.length }

/-- The `has_any` existence check of `address_detail`:
`Transaction.objects.filter(Q(from_address=a) | Q(to_address=a)).exists()`. -/
def hasAnyTransaction (db : DB) (a : String) : Bool :=
  db.transactions.any (fun t => t.from_address == a || t.to_address == a)

/-- The `address_detail` view of tracker/views.py: fetch from the
explorer exactly when no stored transaction references the address, then
render the context from the (possibly updated) database. -/
def address_detail (db : DB) (a : String) (data : TxListResponse) (now : Int) :
    DB × AddressDetailContext :=
  let db1 := if !(hasAnyTransaction db a) then fetch_transactions_from_etherscan db data now else db
  (db1, addressDetailContext db1 a)

/-- Django's many-to-many `add` through the `AddressWatchList` table
(used as `default_watchlist.ethereumaddress_set.add(address)` in
`add_address`): insert the membership row only when the pair is not
already present, as the `unique_together` constraint demands. -/
def m2m_add (rows : List AddressWatchList) (a : String) (w : Nat) : List AddressWatchList :=
  if rows.any (fun r => r.address == a && r.watchlist == w) then rows
  else rows ++ [{ address := a, watchlist := w }]

/-- At most one membership row per (address, watchlist) pair. -/
def uniquePairs (rows : List AddressWatchList) : Prop :=
  List.Pairwise (fun r s => r.address ≠ s.address ∨ r.watchlist ≠ s.watchlist) rows

instance : DecidablePred uniquePairs := fun rows =>
  inferInstanceAs (Decidable (List.Pairwise _ rows))

/-- Concrete empty database used to instantiate the general theorems. -/
def db0 : DB := { addresses := [], transactions := [] }

/-- Concrete address row used to instantiate the general theorems. -/
def addr0 : EthereumAddress := { address := "0xabc", balance := 0, last_updated := 0 }

/-- Concrete well-formed txlist entry used to instantiate the general
theorems. -/
def tx0 : TxEntry :=
  { hash := "0xh1", «from» := "0xA", «to» := "0xB", value := "5",
    gasPrice := "1", gasUsed := "2", blockNumber := "3", timeStamp := "4",
    isError := "0" }

/-- Concrete stored transaction row used to instantiate the general
theorems. -/
def txRow0 : Transaction :=
  { hash := "0xh9", from_address := "0xabc", to_address := "0xdef",
    value := 0, gas_price := 0, gas_used := 0, block_number := 0,
    timestamp := 0, status := true }

/-- An address string that is the spec format plus one trailing newline:
`0x`, forty `a` characters, then `\n`. -/
def newlineAddress : String := "0xaaaaaaaaaaaaaaaaaaaaaaaaaaaaaaaaaaaaaaaa\n"

/-- A stored transaction from address "a", distinguished by index. -/
def outTx (i : Nat) : Transaction :=
  { hash := toString i, from_address := "a", to_address := "b", value := 0,
    gas_price := 0, gas_used := 0, block_number := 0, timestamp := (i : Int),
    status := true }

/-- A database holding 21 outgoing transactions of address "a". -/
def db21 : DB := { addresses := [], transactions := (List.range 21).map outTx }

/- Helper lemmas about `get_or_create` and `importEntry`, shared by the
claim theorems below. -/

theorem get_or_create_fst_transactions (db : DB) (a : String) (now : Int) :
    ((get_or_create db a now).1).transactions = db.transactions := by
  unfold get_or_create
  cases db.addresses.find? (fun e => e.address == a) <;> simp

theorem get_or_create_snd_address (db : DB) (a : String) (now : Int) :
    ((get_or_create db a now).2).address = a := by
  unfold get_or_create
  cases h : db.addresses.find? (fun e => e.address == a) with
  | none => simp
  | some e => simpa using List.find?_some h

theorem get_or_create_snd_mem (db : DB) (a : String) (now : Int) :
    (get_or_create db a now).2 ∈ ((get_or_create db a now).1).addresses := by
  unfold get_or_create
  cases h : db.addresses.find? (fun e => e.address == a) with
  | none => simp
  | some e => simpa using List.mem_of_find?_eq_some h

theorem get_or_create_addresses_mono (db : DB) (a : String) (now : Int) :
    ∀ e ∈ db.addresses, e ∈ ((get_or_create db a now).1).addresses := by
  unfold get_or_create
  cases h : db.addresses.find? (fun e => e.address == a) with
  | none => intro e he; simp [he]
  | some e0 => intro e he; simpa using he

theorem get_or_create_new_zero (db : DB) (a : String) (now : Int) :
    ∀ e ∈ ((get_or_create db a now).1).addresses, e ∈ db.addresses ∨ e.balance = 0 := by
  unfold get_or_create
  cases h : db.addresses.find? (fun e => e.address == a) with
  | some e0 => intro e he; exact Or.inl (by simpa using he)
  | none =>
    intro e he
    rcases (by simpa using he :
        e ∈ db.addresses ∨ e = { address := a, balance := 0, last_updated := now }) with h1 | h1
    · exact Or.inl h1
    · subst h1
      exact Or.inr rfl

theorem importEntry_addresses_new_zero (now : Int) (db : DB) (tx : TxEntry) :
    ∀ e ∈ (importEntry now db tx).addresses, e ∈ db.addresses ∨ e.balance = 0 := by
  unfold importEntry
  by_cases h : hashExists db tx.hash
  · intro e he
    exact Or.inl (by simpa [h] using he)
  · intro e he
    have he2 : e ∈ ((get_or_create (get_or_create db (pyLower tx.«from») now).1
        (pyLower tx.«to») now).1).addresses := by
      simpa [h] using he
    rcases get_or_create_new_zero _ _ _ e he2 with h1 | h1
    · rcases get_or_create_new_zero _ _ _ e h1 with h2 | h2
      · exact Or.inl h2
      · exact Or.inr h2
    · exact Or.inr h1

theorem importEntry_hash_self (now : Int) (db : DB) (tx : TxEntry) :
    hashExists (importEntry now db tx) tx.hash = true := by
  unfold importEntry
  by_cases h : hashExists db tx.hash
  · rw [if_pos h]
    exact h
  · rw [if_neg h]
    unfold hashExists
    simp [List.any_append, createdTransaction]

theorem importEntry_hash_mono (now : Int) (db : DB) (tx : TxEntry) (s : String)
    (hh : hashExists db s = true) : hashExists (importEntry now db tx) s = true := by
  unfold importEntry
  by_cases hc : hashExists db tx.hash
  · rw [if_pos hc]
    exact hh
  · rw [if_neg hc]
    unfold hashExists at hh ⊢
    simp [get_or_create_fst_transactions, List.any_append, hh]

theorem fold_import_hash_mono (now : Int) (l : List TxEntry) (db : DB) (s : String)
    (hh : hashExists db s = true) :
    hashExists (l.foldl (importEntry now) db) s = true := by
  induction l generalizing db with
  | nil => exact hh
  | cons t rest ih => exact ih _ (importEntry_hash_mono now db t s hh)

theorem fold_import_hash_all (now : Int) (l : List TxEntry) (db : DB) :
    ∀ tx ∈ l, hashExists (l.foldl (importEntry now) db) tx.hash = true := by
  induction l generalizing db with
  | nil => intro tx htx; cases htx
  | cons t rest ih =>
    intro tx htx
    rcases List.mem_cons.mp htx with h1 | h1
    · subst h1
      exact fold_import_hash_mono now rest _ _ (importEntry_hash_self now db tx)
    · exact ih _ tx h1

theorem fold_import_skip (now : Int) (l : List TxEntry) (db : DB)
    (h : ∀ tx ∈ l, hashExists db tx.hash = true) :
    l.foldl (importEntry now) db = db := by
  induction l with
  | nil => rfl
  | cons t rest ih =>
    have h1 : importEntry now db t = db := by
      unfold importEntry
      simp [h t (List.mem_cons_self t rest)]
    rw [List.foldl_cons, h1, ih (fun tx htx => h tx (List.mem_cons_of_mem _ htx))]

theorem fold_import_addresses_new_zero (now : Int) (l : List TxEntry) (db : DB) :
    ∀ e ∈ (l.foldl (importEntry now) db).addresses, e ∈ db.addresses ∨ e.balance = 0 := by
  induction l generalizing db with
  | nil => intro e he; exact Or.inl he
  | cons t rest ih =>
    intro e he
    rcases ih (importEntry now db t) e he with h1 | h1
    · exact importEntry_addresses_new_zero now db t e h1
    · exact Or.inr h1

theorem fetch_idem_db (db : DB) (data : TxListResponse) (now now2 : Int) :
    fetch_transactions_from_etherscan (fetch_transactions_from_etherscan db data now) data now2
      = fetch_transactions_from_etherscan db data now := by
  by_cases hs : data.status = "1"
  · unfold fetch_transactions_from_etherscan
    simp only [hs, bne_self_eq_false, Bool.false_eq_true, if_false, ite_false]
    exact fold_import_skip now2 data.result _ (fold_import_hash_all now data.result db)
  · unfold fetch_transactions_from_etherscan
    simp [bne, hs]

/-- C1: re-running `fetch_transactions_from_etherscan` on the same
result list leaves the Transaction table unchanged — every entry's hash
exists after the first run, so the second run skips every entry and
creates nothing. -/
theorem fetch_transactions_idempotent (db : DB) (data : TxListResponse) (now now2 : Int) :
    (fetch_transactions_from_etherscan
        (fetch_transactions_from_etherscan db data now) data now2).transactions
      = (fetch_transactions_from_etherscan db data now).transactions :=
  congrArg DB.transactions (fetch_idem_db db data now now2)

/-- C2: an imported entry yields exactly one new Transaction row, and
its stored `status` is true if and only if the entry's `isError` field
equals the string "0". -/
theorem transaction_status_iff_isError_zero (db : DB) (tx : TxEntry) (now : Int)
    (h : hashExists db tx.hash = false) :
    ∃ t : Transaction, (importEntry now db tx).transactions = db.transactions ++ [t] ∧
      t.hash = tx.hash ∧ (t.status = true ↔ tx.isError = "0") := by
  have hneg : ¬(hashExists db tx.hash = true) := by simp [h]
  refine ⟨createdTransaction (get_or_create db (pyLower tx.«from») now).2
      (get_or_create (get_or_create db (pyLower tx.«from») now).1 (pyLower tx.«to») now).2 tx,
    ?_, rfl, by simp [createdTransaction]⟩
  unfold importEntry
  rw [if_neg hneg]
  simp [get_or_create_fst_transactions]

/-- Witness for C2 at a concrete empty database and entry with
`isError = "0"`. -/
theorem transaction_status_iff_isError_zero_witness :
    ∃ t : Transaction, (importEntry 0 db0 tx0).transactions = db0.transactions ++ [t] ∧
      t.hash = tx0.hash ∧ (t.status = true ↔ tx0.isError = "0") :=
  transaction_status_iff_isError_zero db0 tx0 0 (by decide)

/-- C3: on a `status` "1" response, `update_address_balance` stores the
wei result divided by 10^18 as the address's balance and stamps
`last_updated` to the current time; the result "1000000000000000000"
converts to exactly 1. -/
theorem update_balance_success_conversion (db : DB) (a : EthereumAddress)
    (data : BalanceResponse) (now : Int) (h1 : data.status = "1") (h2 : a ∈ db.addresses) :
    ∃ db', update_address_balance db a data now = Except.ok db' ∧
      ({ a with balance := (parseDecimalNat data.result : Rat) / weiPerEth,
                last_updated := now } : EthereumAddress) ∈ db'.addresses ∧
      (parseDecimalNat "1000000000000000000" : Rat) / weiPerEth = 1 := by
  have hcond : (data.status == "1") = true := by simp [h1]
  refine ⟨saveAddress db { a with balance := (parseDecimalNat data.result : Rat) / weiPerEth,
                                  last_updated := now }, ?_, ?_, ?_⟩
  · unfold update_address_balance
    rw [if_pos hcond]
  · unfold saveAddress
    exact List.mem_map.mpr ⟨a, h2, by simp⟩
  · have hp : parseDecimalNat "1000000000000000000" = 10 ^ 18 := by decide
    rw [hp, weiPerEth]
    norm_num

/-- Witness for C3 at a concrete one-address database and the 1e18-wei
response. -/
theorem update_balance_success_conversion_witness :
    ∃ db', update_address_balance { addresses := [addr0], transactions := [] } addr0
        { status := "1", result := "1000000000000000000" } 7 = Except.ok db' ∧
      ({ addr0 with balance := (parseDecimalNat "1000000000000000000" : Rat) / weiPerEth,
                    last_updated := 7 } : EthereumAddress) ∈ db'.addresses ∧
      (parseDecimalNat "1000000000000000000" : Rat) / weiPerEth = 1 :=
  update_balance_success_conversion { addresses := [addr0], transactions := [] } addr0
    { status := "1", result := "1000000000000000000" } 7 rfl (by simp)

/-- C4: the two fetch paths have distinct failure policies — on a
non-"1" status, `update_address_balance` raises (error value, database
untouched) while `fetch_transactions_from_etherscan` returns silently
with the database unchanged, creating no rows. -/
theorem fetch_failure_policies (db : DB) (a : EthereumAddress) (bdata : BalanceResponse)
    (tdata : TxListResponse) (now : Int)
    (h1 : bdata.status ≠ "1") (h2 : tdata.status ≠ "1") :
    update_address_balance db a bdata now
        = Except.error ("Failed to fetch balance from Etherscan", db) ∧
    fetch_transactions_from_etherscan db tdata now = db := by
  constructor
  · unfold update_address_balance
    rw [if_neg (by simp [h1])]
  · unfold fetch_transactions_from_etherscan
    rw [if_pos (by simp [h2])]

/-- Witness for C4 at a concrete database and "0"-status responses. -/
theorem fetch_failure_policies_witness :
    update_address_balance db0 addr0 { status := "0", result := "99" } 5
        = Except.error ("Failed to fetch balance from Etherscan", db0) ∧
    fetch_transactions_from_etherscan db0 { status := "0", result := [tx0] } 5 = db0 :=
  fetch_failure_policies db0 addr0 { status := "0", result := "99" }
    { status := "0", result := [tx0] } 5 (by decide) (by decide)

/-- C10: when the response status is not "1", `update_address_balance`
performs no write — the raised error carries the database exactly as it
was before the call. -/
theorem update_balance_failure_frame (db : DB) (a : EthereumAddress)
    (data : BalanceResponse) (now : Int) (h : data.status ≠ "1") :
    update_address_balance db a data now
        = Except.error ("Failed to fetch balance from Etherscan", db) := by
  unfold update_address_balance
  rw [if_neg (by simp [h])]

/-- Witness for C10 at a concrete database and a "NOTOK" response. -/
theorem update_balance_failure_frame_witness :
    update_address_balance { addresses := [addr0], transactions := [txRow0] } addr0
        { status := "NOTOK", result := "" } 9
      = Except.error ("Failed to fetch balance from Etherscan",
          { addresses := [addr0], transactions := [txRow0] }) :=
  update_balance_failure_frame { addresses := [addr0], transactions := [txRow0] } addr0
    { status := "NOTOK", result := "" } 9 (by decide)

theorem addressRegexMatch_iff (s : String) :
    addressRegexMatch s = true ↔
      (specAddressFormat s = true ∨
        (s.data.getLast? = some '\n' ∧ hexAddressCore s.data.dropLast = true)) := by
  unfold addressRegexMatch specAddressFormat
  cases h : s.data.getLast? with
  | none => simp [h]
  | some c => simp [h, Bool.or_eq_true, Bool.and_eq_true]

/-- C5 counterexample: the string of `0x`, forty hex characters and one
trailing newline does not have the spec's address format, yet
`clean_address` accepts it, because Python's `$` also matches just
before a newline that ends the string. -/
theorem clean_address_trailing_newline_cex :
    specAddressFormat newlineAddress = false ∧
    clean_address newlineAddress = Except.ok newlineAddress := by
  constructor
  · decide
  · rfl

/-- C5 (amended): `clean_address` accepts exactly the strings of the
spec's address format or of that format followed by one trailing
newline; every accepted string is returned lowercased, and every other
string is rejected with the validation error. -/
theorem clean_address_characterization (s : String) :
    (clean_address s = Except.ok (pyLower s) ↔
      (specAddressFormat s = true ∨
        (s.data.getLast? = some '\n' ∧ hexAddressCore s.data.dropLast = true))) ∧
    (clean_address s = Except.error "Invalid Ethereum address format" ↔
      ¬(specAddressFormat s = true ∨
        (s.data.getLast? = some '\n' ∧ hexAddressCore s.data.dropLast = true))) := by
  have hiff := addressRegexMatch_iff s
  unfold clean_address
  by_cases hm : addressRegexMatch s = true
  · rw [if_neg (by simp [hm])]
    constructor
    · simp [hiff.mp hm]
    · simp [hiff.mp hm]
  · rw [if_pos (by simpa using hm)]
    have hn : ¬(specAddressFormat s = true ∨
        (s.data.getLast? = some '\n' ∧ hexAddressCore s.data.dropLast = true)) :=
      fun hc => hm (hiff.mpr hc)
    constructor
    · simp [hn]
    · simp [hn]

theorem m2m_add_preserves_unique (rows : List AddressWatchList) (a : String) (w : Nat)
    (h : uniquePairs rows) : uniquePairs (m2m_add rows a w) := by
  unfold m2m_add
  by_cases hc : rows.any (fun r => r.address == a && r.watchlist == w)
  · rwa [if_pos hc]
  · rw [if_neg hc]
    unfold uniquePairs at h ⊢
    rw [List.pairwise_append]
    refine ⟨h, List.pairwise_singleton _ _, ?_⟩
    intro r hr b hb
    have hb' : b = { address := a, watchlist := w } := List.mem_singleton.mp hb
    subst hb'
    have h2 : ¬(r.address == a && r.watchlist == w) = true := by
      intro hcc
      exact hc (List.any_eq_true.mpr ⟨r, hr, hcc⟩)
    simp only [Bool.and_eq_true, beq_iff_eq] at h2
    exact not_and_or.mp h2

theorem m2m_add_idem (rows : List AddressWatchList) (a : String) (w : Nat) :
    m2m_add (m2m_add rows a w) a w = m2m_add rows a w := by
  by_cases hc : rows.any (fun r => r.address == a && r.watchlist == w)
  · have h1 : m2m_add rows a w = rows := by
      unfold m2m_add
      rw [if_pos hc]
    rw [h1]
    exact h1
  · have h1 : m2m_add rows a w = rows ++ [{ address := a, watchlist := w }] := by
      unfold m2m_add
      rw [if_neg hc]
    rw [h1]
    unfold m2m_add
    rw [if_pos (by simp [List.any_append])]

theorem fold_m2m_unique (ops : List (String × Nat)) (rows : List AddressWatchList)
    (h : uniquePairs rows) :
    uniquePairs (ops.foldl (fun r p => m2m_add r p.1 p.2) rows) := by
  induction ops generalizing rows with
  | nil => exact h
  | cons p rest ih => exact ih _ (m2m_add_preserves_unique rows p.1 p.2 h)

/-- C6: starting from a membership table with at most one row per
(address, watchlist) pair, any sequence of add operations keeps at most
one row per pair, and adding the same pair twice equals adding it
once. -/
theorem watchlist_membership_unique (rows : List AddressWatchList)
    (ops : List (String × Nat)) (h : uniquePairs rows) :
    uniquePairs (ops.foldl (fun r p => m2m_add r p.1 p.2) rows) ∧
    ∀ a w, m2m_add (m2m_add rows a w) a w = m2m_add rows a w :=
  ⟨fold_m2m_unique ops rows h, fun a w => m2m_add_idem rows a w⟩

/-- Witness for C6: an add sequence with a repeated pair, from the empty
table. -/
theorem watchlist_membership_unique_witness :
    uniquePairs ([("0xabc", 1), ("0xabc", 1), ("0xdef", 2)].foldl
        (fun r p => m2m_add r p.1 p.2) []) ∧
    ∀ a w, m2m_add (m2m_add [] a w) a w = m2m_add [] a w :=
  watchlist_membership_unique [] [("0xabc", 1), ("0xabc", 1), ("0xdef", 2)] (by decide)

/-- C8: importing an entry resolves its lowercased from and to strings
to address rows (reusing an existing row, else creating one), and every
address row the import adds carries the model default balance 0; the
importer itself never sets a balance, so a created row's balance stays 0
until an explicit refresh. -/
theorem import_creates_zero_balance_addresses (db : DB) (tx : TxEntry) (now : Int)
    (h : hashExists db tx.hash = false) :
    (∃ e ∈ (importEntry now db tx).addresses, e.address = (pyLower tx.«from»)) ∧
    (∃ e ∈ (importEntry now db tx).addresses, e.address = (pyLower tx.«to»)) ∧
    (∀ e ∈ (importEntry now db tx).addresses, e ∈ db.addresses ∨ e.balance = 0) ∧
    (∀ (data : TxListResponse) (now2 : Int),
      ∀ e ∈ (fetch_transactions_from_etherscan db data now2).addresses,
        e ∈ db.addresses ∨ e.balance = 0) := by
  have hneg : ¬(hashExists db tx.hash = true) := by simp [h]
  have haddr : (importEntry now db tx).addresses
      = ((get_or_create (get_or_create db (pyLower tx.«from») now).1
            (pyLower tx.«to») now).1).addresses := by
    unfold importEntry
    rw [if_neg hneg]
  refine ⟨?_, ?_, importEntry_addresses_new_zero now db tx, ?_⟩
  · rw [haddr]
    exact ⟨(get_or_create db (pyLower tx.«from») now).2,
      get_or_create_addresses_mono _ _ _ _ (get_or_create_snd_mem db _ now),
      get_or_create_snd_address db _ now⟩
  · rw [haddr]
    exact ⟨(get_or_create (get_or_create db (pyLower tx.«from») now).1 (pyLower tx.«to») now).2,
      get_or_create_snd_mem _ _ now, get_or_create_snd_address _ _ now⟩
  · intro data now2
    unfold fetch_transactions_from_etherscan
    by_cases hs : (data.status != "1") = true
    · rw [if_pos hs]
      intro e he
      exact Or.inl he
    · rw [if_neg hs]
      exact fold_import_addresses_new_zero now2 data.result db

/-- Witness for C8 at the empty database and a concrete entry. -/
theorem import_creates_zero_balance_addresses_witness :
    (∃ e ∈ (importEntry 0 db0 tx0).addresses, e.address = (pyLower tx0.«from»)) ∧
    (∃ e ∈ (importEntry 0 db0 tx0).addresses, e.address = (pyLower tx0.«to»)) ∧
    (∀ e ∈ (importEntry 0 db0 tx0).addresses, e ∈ db0.addresses ∨ e.balance = 0) ∧
    (∀ (data : TxListResponse) (now2 : Int),
      ∀ e ∈ (fetch_transactions_from_etherscan db0 data now2).addresses,
        e ∈ db0.addresses ∨ e.balance = 0) :=
  show _ from import_creates_zero_balance_addresses db0 tx0 0 (by decide)

/-- C9: the detail view calls the external fetch exactly when no stored
transaction references the address as sender or receiver; when one
does, it performs no fetch and renders the stored database unchanged. -/
theorem address_detail_fetch_condition (db : DB) (a : String)
    (data : TxListResponse) (now : Int) :
    (hasAnyTransaction db a = true →
      address_detail db a data now = (db, addressDetailContext db a)) ∧
    (hasAnyTransaction db a = false →
      address_detail db a data now =
        (fetch_transactions_from_etherscan db data now,
         addressDetailContext (fetch_transactions_from_etherscan db data now) a)) := by
  constructor
  · intro h
    simp [address_detail, h]
  · intro h
    simp [address_detail, h]

/-- Witness for C9: a database already holding a transaction of the
address renders unchanged, and the empty database triggers the fetch. -/
theorem address_detail_fetch_condition_witness :
    (address_detail { addresses := [addr0], transactions := [txRow0] } "0xabc"
        { status := "1", result := [] } 3
      = ({ addresses := [addr0], transactions := [txRow0] },
         addressDetailContext { addresses := [addr0], transactions := [txRow0] } "0xabc")) ∧
    (address_detail db0 "0xabc" { status := "1", result := [] } 3
      = (fetch_transactions_from_etherscan db0 { status := "1", result := [] } 3,
         addressDetailContext
           (fetch_transactions_from_etherscan db0 { status := "1", result := [] } 3) "0xabc")) :=
  ⟨(address_detail_fetch_condition { addresses := [addr0], transactions := [txRow0] }
      "0xabc" { status := "1", result := [] } 3).1 (by decide),
   (address_detail_fetch_condition db0 "0xabc" { status := "1", result := [] } 3).2 (by decide)⟩

theorem tsDesc_trans : ∀ (a b c : Transaction), tsDesc a b → tsDesc b c → tsDesc a c := by
  intro a b c h1 h2
  simp only [tsDesc, decide_eq_true_eq] at h1 h2 ⊢
  omega

theorem tsDesc_total : ∀ (a b : Transaction), tsDesc a b || tsDesc b a := by
  intro a b
  simp only [tsDesc, Bool.or_eq_true, decide_eq_true_eq]
  exact Int.le_total _ _

/-- C7 counterexample: with 21 stored outgoing transactions of address
"a", the detail view's outgoing count is 20, not the total 21 — the
count is taken on the already 20-capped queryset. -/
theorem address_detail_total_count_cex :
    (addressDetailContext db21 "a").outgoing_count = 20 ∧
    (db21.transactions.filter (fun t => t.from_address == "a")).length = 21 := by
  constructor
  · show (outgoingWindow db21 "a").length = 20
    unfold outgoingWindow
    rw [List.length_take, List.length_mergeSort]
    decide
  · decide

/-- C7 (amended): the detail view merges the 20 most recent outgoing and
20 most recent incoming transactions, sorts the merged list by timestamp
descending, truncates it to 20 for display, and shows per-direction
counts of the 20-capped windows, i.e. min(20, total) for each
direction rather than the totals. -/
theorem address_detail_context_spec (db : DB) (a : String) :
    (addressDetailContext db a).outgoing_count
        = min 20 (db.transactions.filter (fun t => t.from_address == a)).length ∧
    (addressDetailContext db a).incoming_count
        = min 20 (db.transactions.filter (fun t => t.to_address == a)).length ∧
    (addressDetailContext db a).transactions
        = ((outgoingWindow db a ++ incomingWindow db a).mergeSort tsDesc).take 20 ∧
    (addressDetailContext db a).transactions.length ≤ 20 ∧
    (addressDetailContext db a).transactions.Pairwise (fun t s => tsDesc t s = true) := by
  refine ⟨?_, ?_, rfl, ?_, ?_⟩
  · show (outgoingWindow db a).length = _
    unfold outgoingWindow
    rw [List.length_take, List.length_mergeSort]
  · show (incomingWindow db a).length = _
    unfold incomingWindow
    rw [List.length_take, List.length_mergeSort]
  · show ((((outgoingWindow db a ++ incomingWindow db a).mergeSort tsDesc).take 20)).length ≤ 20
    rw [List.length_take]
    exact Nat.min_le_left _ _
  · exact List.Pairwise.take (List.sorted_mergeSort tsDesc_trans tsDesc_total _)
